import Mathlib

/-!
Verification development for the netlens repository.

Shallow embedding of the core logic:
* `_run_with_timeout` / the four-source enrichment pass of
  `apps/api/main.py` (`resolve`) and `apps/cli/main.py` (`run_resolve`) —
  both contain the same wrapper, called four times in sequence;
* `normalize_url` of `packages/core/core.py`, together with a model of
  the relevant fragment of Python `urllib.parse.urlparse`;
* the lookup functions of `packages/core/enrich.py`
  (`_safe_str_date`, `get_whois`, `get_geoip`, `get_tls_info`,
  `get_dns_records`), with external library calls (python-whois, ipwhois,
  dnspython, ssl sockets) modelled as environment-supplied outcomes;
* the CSV row iteration and per-row isolation of the CLI
  (`_iter_rows`, `run_resolve`), and the best-effort persistence of the
  API handler (`resolve`).

Machine/network effects are made explicit: a lookup call is an
environment value `Except String α` (`ok` = the call returned, `error` =
the call raised, carrying `str(e)`); wall-clock time is modelled in
milliseconds; the process-global socket default timeout is threaded as
explicit state.
-/

namespace NetLens

/-! ### Enrichment pass: `_run_with_timeout` (apps/api/main.py:80-99, apps/cli/main.py:68-87)

The wrapper starts one daemon thread running `func(*args)`; the `runner`
puts either the returned value or, when `func` raises `e`, the dict
`{"error": str(e)}` on a queue; the caller does `q.get(timeout=timeout)`
and returns `{"error": "timeout"}` on `Empty`.

A worker's behaviour is modelled by how long its single lookup call takes
(milliseconds) and whether it returns a value or raises. The caller's
observable elapsed wait for one wrapper call is `min duration budget`:
the queue delivers at `duration` when `duration ≤ budget`, otherwise the
wait is cut off at `budget`. -/

/-- Behaviour of one lookup worker: after `dur` milliseconds it either
returns the value `v` or raises an exception whose `str` is `msg`. -/
inductive LookupBehavior (α : Type) where
  | returns (dur : Nat) (v : α)
  | raises (dur : Nat) (msg : String)
  deriving DecidableEq

/-- What one enrichment slot ends up holding: the lookup result itself,
or the dict `{"error": msg}` (produced both for a raised exception, with
`msg = str(e)`, and for a timeout, with `msg = "timeout"`). -/
inductive SlotValue (α : Type) where
  | ok (v : α)
  | errorDict (msg : String)
  deriving DecidableEq

/-- Model of `_run_with_timeout(func, *args, timeout=budget)`: the slot value the
caller receives, paired with the caller's elapsed wait in milliseconds. -/
def _run_with_timeout {α : Type} (beh : LookupBehavior α) (budgetMs : Nat) :
    SlotValue α × Nat :=
  match beh with
  | .returns dur v =>
      if dur ≤ budgetMs then (.ok v, dur) else (.errorDict "timeout", budgetMs)
  | .raises dur msg =>
      if dur ≤ budgetMs then (.errorDict msg, dur) else (.errorDict "timeout", budgetMs)

/-- The per-source budgets hard-coded at the call sites
(`timeout=1.0`, `timeout=1.0`, `timeout=2.0`, `timeout=1.0`). -/
def whoisBudgetMs : Nat := 1000

/-- GeoIP budget, `timeout=1.0`. -/
def geoipBudgetMs : Nat := 1000

/-- TLS budget, `timeout=2.0`. -/
def tlsBudgetMs : Nat := 2000

/-- DNS budget, `timeout=1.0`. -/
def dnsBudgetMs : Nat := 1000

/-- The four workers of one enrichment pass. -/
structure EnrichBehaviors (α : Type) where
  whois : LookupBehavior α
  geoip : LookupBehavior α
  tls : LookupBehavior α
  dns : LookupBehavior α
  deriving DecidableEq

/-- The aggregate the caller assembles: one slot per source. -/
structure Aggregate (α : Type) where
  whois : SlotValue α
  geoip : SlotValue α
  tls : SlotValue α
  dns : SlotValue α
  deriving DecidableEq

/-- One enrichment pass as written at both call sites: the four
`_run_with_timeout` calls happen one after the other, each blocking the
caller until its own result or timeout before the next lookup is even
started, so the caller's total elapsed time is the sum of the four
individual waits. -/
def enrichPass {α : Type} (b : EnrichBehaviors α) : Aggregate α × Nat :=
  let w := _run_with_timeout b.whois whoisBudgetMs
  let g := _run_with_timeout b.geoip geoipBudgetMs
  let t := _run_with_timeout b.tls tlsBudgetMs
  let d := _run_with_timeout b.dns dnsBudgetMs
  ({ whois := w.1, geoip := g.1, tls := t.1, dns := d.1 },
   w.2 + g.2 + t.2 + d.2)

/-- How long a worker's lookup runs. -/
def durationOf {α : Type} : LookupBehavior α → Nat
  | .returns d _ => d
  | .raises d _ => d

/-- Slot contents as the spec words it: a value produced within budget is
kept, a raise within budget becomes the failure record with the
exception's message, an elapsed budget becomes the timeout record.
Stated from the spec for comparison with the code's `_run_with_timeout`. -/
def slotSpec {α : Type} : LookupBehavior α → Nat → SlotValue α
  | .returns dur v, budget =>
      if dur ≤ budget then .ok v else .errorDict "timeout"
  | .raises dur msg, budget =>
      if dur ≤ budget then .errorDict msg else .errorDict "timeout"

/-- Four workers that all sleep far past their budgets. -/
def slowLookups : EnrichBehaviors Unit :=
  { whois := .returns 10000 (), geoip := .returns 10000 ()
    tls := .returns 10000 (), dns := .returns 10000 () }

example : (enrichPass slowLookups).2 = 5000 := by decide
example : (enrichPass slowLookups).1.whois = .errorDict "timeout" := by decide

/-! ### Resolver: `normalize_url` (packages/core/core.py:5-22)

`normalize_url` uses `urllib.parse.urlparse`; the fragment of CPython's
parser it relies on (scheme split, netloc extraction, `hostname` and
`port` properties) is modelled below over `List Char`.

Model scope, noted where it matters: netlocs without an IPv6 bracket
(`[`), and explicit ports written as plain decimal digit strings
(CPython's `int(s, 10)` additionally accepts surrounding whitespace, a
sign and underscores); `lower()` is ASCII lowering. -/

/-- ASCII lowering of a string, character by character (Python `lower()`
restricted to ASCII; model scope for hosts, schemes and CSV cells). -/
def strLower (s : String) : String :=
  String.mk (s.toList.map Char.toLower)

/-- Substring test: does `s` contain `pat`? (Python `pat in s`.) -/
def containsSub (s pat : List Char) : Bool :=
  match s with
  | [] => pat.isEmpty
  | _ :: t => pat.isPrefixOf s || containsSub t pat

/-- Substring test on strings. -/
def strContains (s pat : String) : Bool :=
  containsSub s.toList pat.toList

/-- Split a list at the first occurrence of `sep`: `some (before, after)`,
or `none` when `sep` does not occur. -/
def splitAtFirstChar (sep : Char) : List Char → Option (List Char × List Char)
  | [] => none
  | c :: cs =>
      if c = sep then some ([], cs)
      else
        match splitAtFirstChar sep cs with
        | none => none
        | some (pre, post) => some (c :: pre, post)

/-- Characters CPython allows in a URL scheme (`scheme_chars`):
letters, digits, `+`, `-`, `.`. -/
def isSchemeChar (c : Char) : Bool :=
  c.isAlpha || c.isDigit || c = '+' || c = '-' || c = '.'

/-- CPython `urlsplit` scheme recognition: the text before the first `:`
is taken as the scheme when it is non-empty, starts with a letter and
consists of scheme characters; the scheme is lowercased. Returns
`(some scheme, rest-after-colon)` or `(none, original)`. -/
def splitScheme (url : List Char) : Option (List Char) × List Char :=
  match splitAtFirstChar ':' url with
  | none => (none, url)
  | some (pre, post) =>
      match pre with
      | [] => (none, url)
      | c0 :: _ =>
          if c0.isAlpha && pre.all isSchemeChar then
            (some (pre.map Char.toLower), post)
          else (none, url)

/-- CPython `urlsplit` netloc extraction: when the remaining text starts
with `//`, the netloc runs up to the first `/`, `?` or `#`. Returns
`(netloc, remainder)`. -/
def splitNetloc (rest : List Char) : List Char × List Char :=
  match rest with
  | '/' :: '/' :: r =>
      (r.takeWhile (fun c => !(c = '/' || c = '?' || c = '#')),
       r.dropWhile (fun c => !(c = '/' || c = '?' || c = '#')))
  | other => ([], other)

/-- Tail of `netloc.rpartition(chr(64))`: the part after the last `@`
(userinfo stripped), or the whole netloc when there is no `@`. -/
def afterLastAt (netloc : List Char) : List Char :=
  match splitAtFirstChar '@' netloc.reverse with
  | none => netloc
  | some (revAfter, _) => revAfter.reverse

/-- CPython `_hostinfo` (bracket-free case): partition the
userinfo-stripped netloc at the first `:` into hostname text and port
text; an absent or empty port text is `none`. -/
def hostinfo (netloc : List Char) : List Char × Option (List Char) :=
  let hi := afterLastAt netloc
  match splitAtFirstChar ':' hi with
  | none => (hi, none)
  | some (h, p) => (h, if p.isEmpty then none else some p)

/-- Decimal value of a digit string. -/
def natOfDigits (ds : List Char) : Nat :=
  ds.foldl (fun acc c => acc * 10 + (c.toNat - 48)) 0

/-- CPython's `SplitResult.port` property: `none` when no port text;
`int(text, 10)` when the text is a digit string, rejected
(`ValueError`, modelled as `Except.error`) when out of `0..65535`;
non-numeric text also raises `ValueError`. -/
def parsePort : Option (List Char) → Except String (Option Nat)
  | none => .ok none
  | some p =>
      if p.all Char.isDigit then
        let n := natOfDigits p
        if n ≤ 65535 then .ok (some n)
        else .error "Port out of range 0-65535"
      else .error "Port could not be cast to integer value"

deriving instance DecidableEq for Except

/-- The components of `urlparse` that `normalize_url` reads. -/
structure UrlParts where
  scheme : String
  hostname : Option String
  port : Except String (Option Nat)
  deriving DecidableEq

/-- Model of `urllib.parse.urlparse`, restricted to the components `normalize_url`
reads. `scheme` is `""` when absent; `hostname` is the lowercased host
text, `none` when empty; `port` models the `port` property (which raises
on malformed port text). -/
def pyUrlparse (url : String) : UrlParts :=
  let sc := splitScheme url.toList
  let nl := splitNetloc sc.2
  let hp := hostinfo nl.1
  { scheme :=
      match sc.1 with
      | none => ""
      | some s => String.mk s
    hostname :=
      if hp.1.isEmpty then none else some (String.mk (hp.1.map Char.toLower))
    port := parsePort hp.2 }

/-- The body of `normalize_url` after `urlparse`:
`scheme = (parsed.scheme or "http").lower()`, `host = parsed.hostname or ""`,
then explicit port if present, else 443 for scheme `https`, else 80. An
exception from the `port` property propagates (`Except.error`). -/
def normalizeParsed (parsed : UrlParts) : Except String (String × Nat) :=
  let scheme := strLower (if parsed.scheme = "" then "http" else parsed.scheme)
  let host := parsed.hostname.getD ""
  match parsed.port with
  | .error e => .error e
  | .ok (some p) => .ok (host, p)
  | .ok none => .ok (host, if scheme = "https" then 443 else 80)

/-- Model of `normalize_url` in `packages/core/core.py`: prepend `http://` when the
input has no `://`, run `urlparse`, then pick host and port. -/
def normalize_url (url : String) : Except String (String × Nat) :=
  let u := if strContains url "://" then url else "http://" ++ url
  normalizeParsed (pyUrlparse u)

example : normalize_url "example.com" = .ok ("example.com", 80) := by decide
example : normalize_url "https://example.com" = .ok ("example.com", 443) := by decide
example : normalize_url "HTTPS://example.com" = .ok ("example.com", 443) := by decide
example : normalize_url "http://example.com:8080" = .ok ("example.com", 8080) := by decide
example : normalize_url "http://" = .ok ("", 80) := by decide
example : normalize_url "http://User@Ex.COM:81/p?q#f" = .ok ("ex.com", 81) := by decide

/-! ### WHOIS date normalization: `_safe_str_date` (packages/core/enrich.py:21-39)

python-whois date fields arrive as `None`, a `datetime`, a string, or a
list of such values. A `datetime` is modelled by the string its
`isoformat()` produces (`str(datetime)` is never reached: the
`isinstance(value, datetime)` branch fires first). Model scope: list
fields hold atoms, as python-whois produces (no nested lists). -/

/-- An atomic Python value in a WHOIS date field. -/
inductive PyAtom where
  | pynone
  | str (s : String)
  | dt (iso : String)
  deriving DecidableEq

/-- A WHOIS field value: one atom or a list of atoms. -/
inductive PyDateVal where
  | atom (a : PyAtom)
  | list (xs : List PyAtom)
  deriving DecidableEq

/-- Python truthiness of an atom: `None` and `""` are falsy, a
`datetime` and any non-empty string are truthy. -/
def truthyAtom : PyAtom → Bool
  | .pynone => false
  | .str s => !(s = "")
  | .dt _ => true

/-- The tail of `_safe_str_date` applied to a non-list value:
`None → None`, `datetime → isoformat()`, otherwise `str(value)`
(identity on strings). -/
def atomToStrDate : PyAtom → Option String
  | .pynone => none
  | .dt iso => some iso
  | .str s => some s

/-- Model of `_safe_str_date`: `None` maps to `None`; a list is reduced by
`next((v for v in value if v), None)` — the first truthy element, or
`None` when every element is falsy; then `datetime` is formatted ISO and
anything else is passed through `str`. -/
def _safe_str_date : PyDateVal → Option String
  | .atom a => atomToStrDate a
  | .list xs =>
      match xs.find? truthyAtom with
      | none => none
      | some a => atomToStrDate a

/-- Date normalization as the claim words it: a list is reduced to its
first NON-NULL element (rather than first truthy element). Stated from
the spec for comparison with the code's `_safe_str_date`. -/
def safe_str_date_claim : PyDateVal → Option String
  | .atom a => atomToStrDate a
  | .list xs =>
      match xs.find? (fun a => !(a = PyAtom.pynone)) with
      | none => none
      | some a => atomToStrDate a

example : _safe_str_date (.list [.str "", .str "b"]) = some "b" := by decide
example : safe_str_date_claim (.list [.str "", .str "b"]) = some "" := by decide

/-! ### Socket default timeout threading (packages/core/enrich.py:55-79, 89-124)

`get_whois` and `get_geoip` both save `socket.getdefaulttimeout()`, set
it to `3.0`, run the library call, and restore the saved value in a
`finally` block; an exception from the call is caught by the outer
`except` after the `finally` ran. The process-global default timeout
(`None` or a number of seconds) is threaded as explicit state; the
library call itself is an environment value (`ok` result or raised
exception message). -/

/-- The process-global socket default timeout: `None` or seconds. -/
abbrev SockTimeout := Option ℚ

/-- A `whois.whois(domain)` result object: the three fields the code
reads. `getattr(data, k, None) or data.get(k)` reads the same underlying
entry twice, so it collapses to the field itself. -/
structure WhoisData where
  registrar : Option String
  creation_date : PyDateVal
  expiration_date : PyDateVal
  deriving DecidableEq

/-- Environment of one `get_whois` call: whether `import whois` succeeds
(with the exception text when not) and the outcome of the library call. -/
structure WhoisEnv where
  importOk : Bool
  importErr : String
  lookup : Except String WhoisData
  deriving DecidableEq

/-- The dict `get_whois` returns. -/
inductive WhoisOut where
  | ok (registrar creation expiration : Option String)
  | error (msg : String)
  deriving DecidableEq

/-- Model of `get_whois(domain)`, with the socket default timeout threaded as
state. Import failure returns the dependency error before the timeout is
touched; otherwise the timeout is set to `3.0` for the library call and
restored by `finally` on both the return path and the raise path (the
outer `except` then wraps a raise as `{"error": "WHOIS fallo: ..."}`). -/
def get_whois (env : WhoisEnv) (s0 : SockTimeout) : WhoisOut × SockTimeout :=
  if env.importOk = false then
    (.error ("Dependencia no disponible: whois: " ++ env.importErr), s0)
  else
    let prev := s0
    let _s1 : SockTimeout := some 3
    match env.lookup with
    | .error e =>
        (.error ("WHOIS fallo: " ++ e), prev)
    | .ok data =>
        let registrar :=
          match data.registrar with
          | none => none
          | some r => if r = "" then none else some r
        (.ok registrar
            (_safe_str_date data.creation_date)
            (_safe_str_date data.expiration_date),
         prev)

/-- The `network` object of an RDAP result: the two fields read. -/
structure NetworkObj where
  country : Option String
  name : Option String
  deriving DecidableEq

/-- An `IPWhois(ip).lookup_rdap(...)` result: the fields the code reads. -/
structure RdapResult where
  network : Option NetworkObj
  asn_country_code : Option String
  asn_description : Option String
  deriving DecidableEq

/-- Environment of one `get_geoip` call. -/
structure GeoipEnv where
  importOk : Bool
  importErr : String
  lookup : Except String RdapResult
  deriving DecidableEq

/-- The dict `get_geoip` returns. -/
inductive GeoipOut where
  | ok (country organization : Option String)
  | error (msg : String)
  deriving DecidableEq

/-- Python `if not a: a = b` on optional strings: keep `a` when truthy
(present and non-empty), otherwise take `b`. -/
def truthyOr (a b : Option String) : Option String :=
  match a with
  | some s => if s = "" then b else some s
  | none => b

/-- Model of `get_geoip(ip)`: dependency guard, timeout save/set/restore around
`lookup_rdap`, then country from `network.country` falling back to
`asn_country_code`, and organization from `network.name` falling back to
`asn_description`. -/
def get_geoip (env : GeoipEnv) (s0 : SockTimeout) : GeoipOut × SockTimeout :=
  if env.importOk = false then
    (.error ("Dependencia no disponible: ipwhois: " ++ env.importErr), s0)
  else
    let prev := s0
    let _s1 : SockTimeout := some 3
    match env.lookup with
    | .error e =>
        (.error ("GeoIP fallo: " ++ e), prev)
    | .ok result =>
        let country := truthyOr ((result.network.bind NetworkObj.country))
          result.asn_country_code
        let organization := truthyOr ((result.network.bind NetworkObj.name))
          result.asn_description
        (.ok country organization, prev)

/-! ### TLS lookup: `get_tls_info` (packages/core/enrich.py:127-173)

The verified handshake (`ssl.create_default_context()` + connect +
`wrap_socket` + `getpeercert()`) has three outcomes: it returns a cert
dict, it raises `ssl.SSLCertVerificationError`, or it raises some other
exception. Only in the third case does the code attempt the fallback
handshake with an unverified context, whose outcome is a cert dict or a
raise. Both attempts are environment values. -/

/-- A peer certificate dict: `issuer` as a list of RDNs (each a list of
key/value pairs; the code reads only the first pair of each RDN), and
`notAfter`. -/
structure CertDict where
  issuer : Option (List (List (String × String)))
  notAfter : Option String
  deriving DecidableEq

/-- Outcome of the verified handshake. -/
inductive TLSOutcome where
  | success (cert : CertDict)
  | verifyError (msg : String)
  | otherError (msg : String)
  deriving DecidableEq

/-- Environment of one `get_tls_info` call: the verified attempt, and
the unverified fallback attempt (`some cert` when it returns, `none`
when it raises). -/
structure TLSEnv where
  verified : TLSOutcome
  unverified : Option CertDict
  deriving DecidableEq

/-- The dict `get_tls_info` returns: issuer/notAfter info (with the
`unverified` flag, present only on the fallback path) or an error. -/
inductive TLSResult where
  | info (issuer notAfter : Option String) (unverified : Bool)
  | error (msg : String)
  deriving DecidableEq

/-- Model of `_extract_cert_fields`: join `k=v` of the first pair of each RDN
with `", "`; `None` when there are no parts; pass `notAfter` through. -/
def _extract_cert_fields (cert : CertDict) : Option String × Option String :=
  let issuerParts : List String :=
    match cert.issuer with
    | none => []
    | some rdns =>
        rdns.filterMap fun rdn =>
          rdn.head?.map fun kv => kv.1 ++ "=" ++ kv.2
  (if issuerParts.isEmpty then none
   else some (String.intercalate ", " issuerParts),
   cert.notAfter)

/-- Model of `get_tls_info(host, port)`: a successful verified handshake returns
the extracted fields; `ssl.SSLCertVerificationError` returns the
expired-certificate error when the lowercased message mentions expiry
and a generic verification error otherwise — with NO fallback; any
other exception triggers the unverified fallback, whose success returns
the extracted fields flagged `unverified = True` and whose failure
returns the generic TLS error with the original exception message. -/
def get_tls_info (env : TLSEnv) : TLSResult :=
  match env.verified with
  | .success cert =>
      let f := _extract_cert_fields cert
      .info f.1 f.2 false
  | .verifyError ve =>
      let msg := strLower ve
      if strContains msg "expired" || strContains msg "has expired" then
        .error "TLS certificado expirado"
      else
        .error ("TLS verificación falló: " ++ ve)
  | .otherError e =>
      match env.unverified with
      | some cert =>
          let f := _extract_cert_fields cert
          .info f.1 f.2 true
      | none => .error ("TLS fallo: " ++ e)

/-- Is a TLS result the unverified-fallback info record the claim
promises on verification failure? -/
def isUnverifiedInfo : TLSResult → Bool
  | .info _ _ true => true
  | _ => false

example :
    get_tls_info { verified := .verifyError "certificate has EXPIRED", unverified := none } =
      .error "TLS certificado expirado" := by decide

/-! ### DNS lookup: `get_dns_records` (packages/core/enrich.py:176-223)

`dns.resolver` import failure and `Resolver()` construction failure hit
the dependency / outer error paths; after that, each record type is
queried by the inner `query`, which catches every exception and returns
`[]`. The per-type conversions are kept: A/AAAA use `rdata.to_text()`
(modelled as the environment-supplied strings), MX uses
`rdata.exchange.to_text()`, TXT uses `rdata.to_text()` with one pair of
surrounding double quotes stripped. -/

/-- An MX rdata: the `exchange` field the code reads (as text). -/
structure MXRdata where
  exchange : String
  deriving DecidableEq

/-- Environment of one `get_dns_records` call: import and resolver
construction outcomes, and per-record-type answers (`ok` = the list the
resolver yields, `error` = `resolver.resolve` raised). -/
structure DNSEnv where
  importOk : Bool
  importErr : String
  resolverOk : Bool
  resolverErr : String
  ansA : Except String (List String)
  ansAAAA : Except String (List String)
  ansMX : Except String (List MXRdata)
  ansTXT : Except String (List String)
  deriving DecidableEq

/-- The dict `get_dns_records` returns: the four record lists, or a
top-level error. -/
inductive DNSResult where
  | records (a aaaa mx txt : List String)
  | error (msg : String)
  deriving DecidableEq

/-- TXT normalization: `to_text()` output with one pair of surrounding
double quotes removed (`txt[1:-1]`). -/
def stripTxtQuotes (txt : List Char) : List Char :=
  match txt with
  | '"' :: rest =>
      if ('"' :: rest).getLast? = some '"' then rest.dropLast
      else '"' :: rest
  | other => other

/-- The inner `query(qtype)` for address records: answers on success,
`[]` on any exception. -/
def queryAddr (ans : Except String (List String)) : List String :=
  match ans with
  | .ok xs => xs
  | .error _ => []

/-- Model of `query("MX")`: the `exchange` of each answer, `[]` on exception. -/
def queryMX (ans : Except String (List MXRdata)) : List String :=
  match ans with
  | .ok xs => xs.map MXRdata.exchange
  | .error _ => []

/-- Model of `query("TXT")`: quote-stripped answers, `[]` on exception. -/
def queryTXT (ans : Except String (List String)) : List String :=
  match ans with
  | .ok xs => xs.map (fun t => String.mk (stripTxtQuotes t.toList))
  | .error _ => []

/-- Model of `get_dns_records(domain)`: dependency error when the import fails,
outer `DNS fallo` error when resolver construction raises, and otherwise
a record dict with all four keys, each the result of its own
exception-absorbing query. -/
def get_dns_records (env : DNSEnv) : DNSResult :=
  if env.importOk = false then
    .error ("Dependencia no disponible: dnspython: " ++ env.importErr)
  else if env.resolverOk = false then
    .error ("DNS fallo: " ++ env.resolverErr)
  else
    .records (queryAddr env.ansA) (queryAddr env.ansAAAA)
      (queryMX env.ansMX) (queryTXT env.ansTXT)

/-! ### API handler: `resolve` (apps/api/main.py:61-154)

The handler normalizes the URL (exception → HTTP 400 `invalid url: ...`),
rejects an empty host (400 `invalid url: missing host`), resolves the IP
(exception → 400 with the raw message), runs the four sequential
`_run_with_timeout` calls, assembles the response, and then persists
best-effort: the whole DB block is wrapped in `except Exception`, which
logs `DB persist failed: ...` and continues; DB unavailability is a
debug log. Name resolution, the enrichment workers and the DB write are
environment values; log lines are returned alongside the result. -/

/-- A `/resolve` request body (validation of non-emptiness is owned by
the web framework and out of scope). -/
structure ResolveRequest where
  name : String
  url : String
  deriving DecidableEq

/-- The `/resolve` response body. -/
structure ResolveResponse (α : Type) where
  name : String
  ip : String
  port : Nat
  timestamp : String
  whois : SlotValue α
  geoip : SlotValue α
  tls : SlotValue α
  dns : SlotValue α
  deriving DecidableEq

/-- What the handler hands back to the framework: a response, or an
`HTTPException(status, detail)`. -/
inductive ApiResult (α : Type) where
  | ok (resp : ResolveResponse α)
  | httpError (status : Nat) (detail : String)
  deriving DecidableEq

/-- Environment of one API `resolve` call: `resolve_ip` outcome per
host, the four enrichment workers as a function of (host, ip, port),
the request timestamp, and the persistence collaborator (`dbAvailable`
models `_DB_AVAILABLE and get_session and ...`; `dbWrite` is the whole
session block, `ok` or raised). -/
structure ApiEnv (α : Type) where
  resolveIp : String → Except String String
  lookups : String → String → Nat → EnrichBehaviors α
  timestamp : String
  dbAvailable : Bool
  dbWrite : Except String Unit

/-- The API `resolve` handler, returning the HTTP-level outcome and the
log lines emitted. -/
def apiResolve {α : Type} (env : ApiEnv α) (req : ResolveRequest) :
    ApiResult α × List String :=
  match normalize_url req.url with
  | .error e => (.httpError 400 ("invalid url: " ++ e), [])
  | .ok (host, port) =>
      if host = "" then (.httpError 400 "invalid url: missing host", [])
      else
        match env.resolveIp host with
        | .error e => (.httpError 400 e, [])
        | .ok ip =>
            let agg := (enrichPass (env.lookups host ip port)).1
            let resp : ResolveResponse α :=
              { name := req.name, ip := ip, port := port
                timestamp := env.timestamp
                whois := agg.whois, geoip := agg.geoip
                tls := agg.tls, dns := agg.dns }
            let logs :=
              if env.dbAvailable then
                match env.dbWrite with
                | .ok _ => []
                | .error m => ["DB persist failed: " ++ m]
              else ["DB not available; skipping persistence"]
            (.ok resp, logs)

/-! ### CLI batch: `_iter_rows` and `run_resolve` (apps/cli/main.py:39-152)

`_iter_rows` skips empty rows, skips a header row whose first two
stripped+lowercased cells are `nombre` / `url`, logs and skips rows with
fewer than two columns, and yields the stripped first two cells of the
rest. `run_resolve` writes the output header, then per yielded row
resolves and writes one output row, with the whole row body inside
`try/except` so a failure is logged and the batch continues. Python
`str.strip()` is modelled as trimming ASCII whitespace. -/

/-- Python `strip()` on a CSV cell (ASCII-whitespace scope). -/
def pyStrip (s : String) : String :=
  String.mk
    (((s.toList.dropWhile Char.isWhitespace).reverse.dropWhile
        Char.isWhitespace).reverse)

/-- Model of `_iter_rows(reader)`: the `(name, url)` pairs it yields. -/
def _iter_rows : List (List String) → List (String × String)
  | [] => []
  | [] :: rest => _iter_rows rest
  | [_] :: rest => _iter_rows rest
  | (a :: b :: _) :: rest =>
      if strLower (pyStrip a) = "nombre" && strLower (pyStrip b) = "url" then
        _iter_rows rest
      else (pyStrip a, pyStrip b) :: _iter_rows rest

/-- Environment of one CLI `run_resolve` call: `resolve_ip` outcome per
host and the timestamp. (The per-row enrichment side channel and the
best-effort DB write come after the output row is written and cannot
raise past the per-row `except`; they are not modelled here.) -/
structure CliEnv where
  resolveIp : String → Except String String
  timestamp : String

/-- One iteration of `process(name, url)` up to the output row: `ok`
with the CSV row written to stdout, or `error` with the logged message
(Python logs `Error resolviendo name (url): exc`; quotes around the name
are omitted in the model). -/
def processRow (env : CliEnv) (nu : String × String) :
    Except String (List String) :=
  match normalize_url nu.2 with
  | .error e =>
      .error ("Error resolviendo " ++ nu.1 ++ " (" ++ nu.2 ++ "): " ++ e)
  | .ok (host, port) =>
      match env.resolveIp host with
      | .error e =>
          .error ("Error resolviendo " ++ nu.1 ++ " (" ++ nu.2 ++ "): " ++ e)
      | .ok ip => .ok [nu.1, ip, toString port, env.timestamp]

/-- What one CLI `resolve` run produces: the CSV rows written to stdout
(header first) and the error lines logged, in order. -/
structure CliOutput where
  rows : List (List String)
  errors : List String
  deriving DecidableEq

/-- Model of `run_resolve`: header row, then one output row per successfully
processed input row and one log line per failed one. -/
def run_resolve (env : CliEnv) (input : List (List String)) : CliOutput :=
  let outs := (_iter_rows input).map (processRow env)
  { rows :=
      ["nombre", "ip", "puerto", "timestamp"] ::
        outs.filterMap fun r =>
          match r with
          | .ok row => some row
          | .error _ => none
    errors :=
      outs.filterMap fun r =>
        match r with
        | .ok _ => none
        | .error e => some e }

/-! ## Theorems -/

/-- Helper: the caller waits `min duration budget` on one
`_run_with_timeout` call. -/
theorem run_with_timeout_elapsed {α : Type} (beh : LookupBehavior α)
    (budget : Nat) :
    (_run_with_timeout beh budget).2 = min (durationOf beh) budget := by
  cases beh <;> simp only [_run_with_timeout, durationOf] <;> split <;> omega

/-- Helper: one `_run_with_timeout` slot matches the per-slot contract. -/
theorem run_with_timeout_slot {α : Type} (beh : LookupBehavior α)
    (budget : Nat) :
    (_run_with_timeout beh budget).1 = slotSpec beh budget := by
  cases beh <;> simp only [_run_with_timeout, slotSpec] <;> split <;> rfl

/-- C1, counterexample: with all four lookups sleeping 10000 ms, one
enrichment pass takes 5000 ms — the sum of the budgets — which exceeds
the claimed bound `max(budgets) = 2000 ms`, even though every slot is
the timeout record. The claim as stated is false of the code: the four
`_run_with_timeout` calls are made one after the other, each blocking up
to its own budget before the next lookup starts. -/
theorem enrich_elapsed_exceeds_max_budgets :
    (enrichPass slowLookups).2 = 5000 ∧
    max (max whoisBudgetMs geoipBudgetMs) (max tlsBudgetMs dnsBudgetMs) = 2000 ∧
    ¬ (enrichPass slowLookups).2 ≤ 2000 ∧
    (enrichPass slowLookups).1.whois = .errorDict "timeout" ∧
    (enrichPass slowLookups).1.geoip = .errorDict "timeout" ∧
    (enrichPass slowLookups).1.tls = .errorDict "timeout" ∧
    (enrichPass slowLookups).1.dns = .errorDict "timeout" := by
  decide

/-- C1, amended: the four per-source waits happen sequentially, so the
wall-clock time of one enrichment pass equals the SUM over the four
sources of `min(lookup duration, per-source budget)`; it is therefore
bounded by the sum of the budgets (5000 ms), not by their maximum
(2000 ms), and a source sleeping past its budget contributes exactly its
full budget to the total while its slot becomes the timeout record. -/
theorem enrich_elapsed_eq_sum_of_min_waits {α : Type}
    (b : EnrichBehaviors α) :
    (enrichPass b).2 =
      min (durationOf b.whois) whoisBudgetMs +
      min (durationOf b.geoip) geoipBudgetMs +
      min (durationOf b.tls) tlsBudgetMs +
      min (durationOf b.dns) dnsBudgetMs ∧
    (enrichPass b).2 ≤ whoisBudgetMs + geoipBudgetMs + tlsBudgetMs + dnsBudgetMs ∧
    (whoisBudgetMs < durationOf b.whois →
      (enrichPass b).1.whois = .errorDict "timeout") := by
  refine ⟨?_, ?_, ?_⟩
  · show (_run_with_timeout b.whois whoisBudgetMs).2 + _ + _ + _ = _
    rw [run_with_timeout_elapsed, run_with_timeout_elapsed,
      run_with_timeout_elapsed, run_with_timeout_elapsed]
  · show (_run_with_timeout b.whois whoisBudgetMs).2 + _ + _ + _ ≤ _
    rw [run_with_timeout_elapsed, run_with_timeout_elapsed,
      run_with_timeout_elapsed, run_with_timeout_elapsed]
    have h1 := Nat.min_le_right (durationOf b.whois) whoisBudgetMs
    have h2 := Nat.min_le_right (durationOf b.geoip) geoipBudgetMs
    have h3 := Nat.min_le_right (durationOf b.tls) tlsBudgetMs
    have h4 := Nat.min_le_right (durationOf b.dns) dnsBudgetMs
    omega
  · intro h
    show (_run_with_timeout b.whois whoisBudgetMs).1 = _
    rw [run_with_timeout_slot]
    cases hb : b.whois with
    | returns d v =>
        simp only [slotSpec]
        rw [hb] at h
        simp only [durationOf] at h
        rw [if_neg (by omega)]
    | raises d m =>
        simp only [slotSpec]
        rw [hb] at h
        simp only [durationOf] at h
        rw [if_neg (by omega)]

/-- C1, witness for the amended theorem: at the all-slow input the
elapsed time is the sum of the four clipped waits and the whois slot is
the timeout record. -/
theorem enrich_elapsed_eq_sum_of_min_waits_witness :
    (enrichPass slowLookups).2 =
      min (durationOf slowLookups.whois) whoisBudgetMs +
      min (durationOf slowLookups.geoip) geoipBudgetMs +
      min (durationOf slowLookups.tls) tlsBudgetMs +
      min (durationOf slowLookups.dns) dnsBudgetMs ∧
    (enrichPass slowLookups).1.whois = .errorDict "timeout" :=
  ⟨(enrich_elapsed_eq_sum_of_min_waits slowLookups).1,
   (enrich_elapsed_eq_sum_of_min_waits slowLookups).2.2 (by decide)⟩

/-- C2: one enrichment pass always yields a fully populated aggregate —
each of the four slots equals the per-slot contract applied to that
source's own behaviour and budget alone: a value returned within budget
is kept, a raise within budget becomes the failure record carrying the
exception's message, an elapsed budget becomes `{"error": "timeout"}` —
and the pass is a total function (never raises). That each slot is a
function of its own source only is the required failure isolation. -/
theorem enrich_slot_contract {α : Type} (b : EnrichBehaviors α) :
    (enrichPass b).1.whois = slotSpec b.whois whoisBudgetMs ∧
    (enrichPass b).1.geoip = slotSpec b.geoip geoipBudgetMs ∧
    (enrichPass b).1.tls = slotSpec b.tls tlsBudgetMs ∧
    (enrichPass b).1.dns = slotSpec b.dns dnsBudgetMs :=
  ⟨run_with_timeout_slot b.whois whoisBudgetMs,
   run_with_timeout_slot b.geoip geoipBudgetMs,
   run_with_timeout_slot b.tls tlsBudgetMs,
   run_with_timeout_slot b.dns dnsBudgetMs⟩

/-- TLS environment where verification fails for a non-expiry reason
while an unverified handshake would succeed and report a certificate. -/
def tlsVerifyFailEnv : TLSEnv :=
  { verified := .verifyError "self signed certificate in chain"
    unverified := some { issuer := some [[("commonName", "BadCA")]]
                         notAfter := some "Jan  1 00:00:00 2030 GMT" } }

/-- C3, counterexample: when the verified handshake raises
`SSLCertVerificationError` for a non-expiry reason, `get_tls_info`
returns the verification error directly and never attempts the
unverified fallback, even though the fallback handshake would have
succeeded — so the result is not an `unverified = True` info record,
contrary to the claim. The fallback only runs for exceptions other than
certificate-verification errors. -/
theorem tls_no_fallback_on_verification_failure :
    get_tls_info tlsVerifyFailEnv =
      .error "TLS verificación falló: self signed certificate in chain" ∧
    tlsVerifyFailEnv.unverified.isSome = true ∧
    isUnverifiedInfo (get_tls_info tlsVerifyFailEnv) = false := by
  decide

/-- C3, amended: `get_tls_info` distinguishes an expired certificate
from other verification failures (a verification-error message
mentioning expiry yields the distinct expired-certificate error), but
the unverified-handshake fallback — which reports issuer and notAfter
flagged `unverified = True` — runs only when the handshake fails with an
exception OTHER than a certificate-verification error; verification
failures return an error record without any fallback. -/
theorem tls_expired_distinct_fallback_on_other_errors (env : TLSEnv) :
    (∀ ve, env.verified = .verifyError ve →
      strContains (strLower ve) "expired" = true →
      get_tls_info env = .error "TLS certificado expirado") ∧
    (∀ ve, env.verified = .verifyError ve →
      (strContains (strLower ve) "expired" ||
        strContains (strLower ve) "has expired") = false →
      get_tls_info env = .error ("TLS verificación falló: " ++ ve)) ∧
    (∀ e cert, env.verified = .otherError e → env.unverified = some cert →
      get_tls_info env =
        .info (_extract_cert_fields cert).1 (_extract_cert_fields cert).2 true) ∧
    (∀ e, env.verified = .otherError e → env.unverified = none →
      get_tls_info env = .error ("TLS fallo: " ++ e)) := by
  refine ⟨?_, ?_, ?_, ?_⟩
  · intro ve hv hexp
    simp [get_tls_info, hv, hexp]
  · intro ve hv hexp
    simp only [Bool.or_eq_false_iff] at hexp
    simp [get_tls_info, hv, hexp.1, hexp.2]
  · intro e cert hv hu
    simp [get_tls_info, hv, hu]
  · intro e hv hu
    simp [get_tls_info, hv, hu]

/-- TLS environment with an expired certificate. -/
def tlsExpiredEnv : TLSEnv :=
  { verified := .verifyError "certificate has expired", unverified := none }

/-- TLS environment where the handshake fails with a non-verification
error and the unverified fallback succeeds. -/
def tlsConnFailEnv : TLSEnv :=
  { verified := .otherError "boom"
    unverified := some { issuer := some [[("commonName", "BadCA")]]
                         notAfter := some "Jan  1 00:00:00 2030 GMT" } }

/-- TLS environment where both handshakes fail. -/
def tlsBothFailEnv : TLSEnv :=
  { verified := .otherError "boom", unverified := none }

/-- C3, witness for the amended theorem at concrete environments for the
expired, fallback-success and fallback-failure branches. -/
theorem tls_expired_distinct_fallback_witness :
    get_tls_info tlsExpiredEnv = .error "TLS certificado expirado" ∧
    get_tls_info tlsConnFailEnv =
      .info (some "commonName=BadCA") (some "Jan  1 00:00:00 2030 GMT") true ∧
    get_tls_info tlsBothFailEnv = .error ("TLS fallo: " ++ "boom") := by
  refine ⟨?_, ?_, ?_⟩
  · exact (tls_expired_distinct_fallback_on_other_errors tlsExpiredEnv).1
      "certificate has expired" rfl (by decide)
  · have h := (tls_expired_distinct_fallback_on_other_errors tlsConnFailEnv).2.2.1
      "boom" { issuer := some [[("commonName", "BadCA")]]
               notAfter := some "Jan  1 00:00:00 2030 GMT" } rfl rfl
    rw [h]; decide
  · exact (tls_expired_distinct_fallback_on_other_errors tlsBothFailEnv).2.2.2
      "boom" rfl rfl

/-- C4: whenever the dnspython import succeeds and the resolver is
constructed, `get_dns_records` returns a record mapping that carries all
four record-type keys A, AAAA, MX, TXT, each bound to a list of strings;
a record type whose individual query raises is bound to the empty list,
and one whose query succeeds keeps its answers. (When the dependency is
missing or resolver construction fails, the code returns the documented
`{"error": ...}` record instead — that path is the spec's separate
dependency-absence contract.) -/
theorem dns_records_all_keys_present (env : DNSEnv)
    (h1 : env.importOk = true) (h2 : env.resolverOk = true) :
    get_dns_records env =
      .records (queryAddr env.ansA) (queryAddr env.ansAAAA)
        (queryMX env.ansMX) (queryTXT env.ansTXT) ∧
    (∀ e, env.ansA = .error e → queryAddr env.ansA = []) ∧
    (∀ e, env.ansAAAA = .error e → queryAddr env.ansAAAA = []) ∧
    (∀ e, env.ansMX = .error e → queryMX env.ansMX = []) ∧
    (∀ e, env.ansTXT = .error e → queryTXT env.ansTXT = []) ∧
    (∀ xs, env.ansA = .ok xs → queryAddr env.ansA = xs) := by
  refine ⟨by simp [get_dns_records, h1, h2], ?_, ?_, ?_, ?_, ?_⟩
  · intro e he; simp [queryAddr, he]
  · intro e he; simp [queryAddr, he]
  · intro e he; simp [queryMX, he]
  · intro e he; simp [queryTXT, he]
  · intro xs hx; simp [queryAddr, hx]

/-- DNS environment for a domain with no MX records (that query raises
`NoAnswer`) and quoted TXT data. -/
def dnsEnvNoMX : DNSEnv :=
  { importOk := true, importErr := "", resolverOk := true, resolverErr := ""
    ansA := .ok ["93.184.216.34"]
    ansAAAA := .ok ["2606:2800:220:1:248:1893:25c8:1946"]
    ansMX := .error "The DNS response does not contain an answer"
    ansTXT := .ok ["\"v=spf1 -all\""] }

/-- C4, witness: on a domain with no MX records the MX key is present
and bound to the empty list, the other keys keep their answers, and the
TXT quotes are stripped. -/
theorem dns_records_all_keys_present_witness :
    get_dns_records dnsEnvNoMX =
      .records ["93.184.216.34"] ["2606:2800:220:1:248:1893:25c8:1946"]
        [] ["v=spf1 -all"] := by
  rw [(dns_records_all_keys_present dnsEnvNoMX rfl rfl).1]
  decide

/-- C5: for every URL string, when the input has no scheme separator
`normalize_url` prepends `http://` before parsing; the returned port is
the explicit port when the parse finds one, else 443 when the effective
scheme compares (lowercased) equal to `https`, else 80; in particular
`"example.com"` yields `("example.com", 80)`, `"https://example.com"`
yields `("example.com", 443)` (also with the scheme written in upper
case), and `"http://example.com:8080"` yields `("example.com", 8080)`. -/
theorem normalize_url_scheme_default_and_port_selection :
    (∀ url : String, strContains url "://" = false →
      normalize_url url = normalizeParsed (pyUrlparse ("http://" ++ url))) ∧
    (∀ url : String, ∀ n : Nat,
      (pyUrlparse (if strContains url "://" then url
        else "http://" ++ url)).port = .ok (some n) →
      normalize_url url =
        .ok ((pyUrlparse (if strContains url "://" then url
          else "http://" ++ url)).hostname.getD "", n)) ∧
    (∀ url : String,
      (pyUrlparse (if strContains url "://" then url
        else "http://" ++ url)).port = .ok none →
      normalize_url url =
        .ok ((pyUrlparse (if strContains url "://" then url
            else "http://" ++ url)).hostname.getD "",
          if strLower (if (pyUrlparse (if strContains url "://" then url
              else "http://" ++ url)).scheme = "" then "http"
            else (pyUrlparse (if strContains url "://" then url
              else "http://" ++ url)).scheme) = "https" then 443 else 80)) ∧
    normalize_url "example.com" = .ok ("example.com", 80) ∧
    normalize_url "https://example.com" = .ok ("example.com", 443) ∧
    normalize_url "HTTPS://example.com" = .ok ("example.com", 443) ∧
    normalize_url "http://example.com:8080" = .ok ("example.com", 8080) := by
  refine ⟨?_, ?_, ?_, by decide, by decide, by decide, by decide⟩
  · intro url h
    simp [normalize_url, h]
  · intro url n h
    simp [normalize_url, normalizeParsed, h]
  · intro url h
    simp [normalize_url, normalizeParsed, h]

/-- C5, witness: the universally quantified parts applied at concrete
URLs, hypotheses discharged by evaluation. -/
theorem normalize_url_scheme_default_witness :
    normalize_url "example.com" =
      normalizeParsed (pyUrlparse ("http://" ++ "example.com")) ∧
    normalize_url "http://example.com:8080" = .ok ("example.com", 8080) ∧
    normalize_url "https://example.com" = .ok ("example.com", 443) := by
  refine ⟨?_, ?_, ?_⟩
  · exact normalize_url_scheme_default_and_port_selection.1 "example.com"
      (by decide)
  · have h := normalize_url_scheme_default_and_port_selection.2.1
      "http://example.com:8080" 8080 (by decide)
    rw [h]; decide
  · have h := normalize_url_scheme_default_and_port_selection.2.2.1
      "https://example.com" (by decide)
    rw [h]; decide

/-- C6: a URL with no authority parses to an empty-string host without
raising — `normalize_url("http://")` returns `("", 80)` — and the API
handler rejects the empty host with HTTP 400
`invalid url: missing host` instead of proceeding, for every
environment and request name. -/
theorem normalize_url_empty_host_api_rejects :
    normalize_url "http://" = .ok ("", 80) ∧
    ∀ (α : Type) (env : ApiEnv α) (name : String),
      (apiResolve env { name := name, url := "http://" }).1 =
        .httpError 400 "invalid url: missing host" := by
  refine ⟨by decide, ?_⟩
  intro α env name
  have h : normalize_url "http://" = .ok ("", 80) := by decide
  simp [apiResolve, h]

/-- C7, counterexample: on the list `["", "2020-01-01"]` the code takes
the first TRUTHY element and yields `"2020-01-01"`, while the claim's
first NON-NULL element is the empty string — the two disagree, so
"first non-null element" misdescribes `_safe_str_date`. -/
theorem safe_str_date_first_truthy_not_first_nonnull :
    _safe_str_date (.list [.str "", .str "2020-01-01"]) = some "2020-01-01" ∧
    safe_str_date_claim (.list [.str "", .str "2020-01-01"]) = some "" ∧
    _safe_str_date (.list [.str "", .str "2020-01-01"]) ≠
      safe_str_date_claim (.list [.str "", .str "2020-01-01"]) := by
  decide

/-- Is an atom either `None` or truthy (i.e. not a falsy non-null value
such as the empty string)? -/
def nullOrTruthy : PyAtom → Bool
  | .pynone => true
  | a => truthyAtom a

/-- Helper: on a list without falsy non-null elements, the first truthy
element is the first non-null element. -/
theorem find_truthy_eq_find_nonnull (xs : List PyAtom)
    (h : xs.all nullOrTruthy = true) :
    xs.find? truthyAtom = xs.find? (fun a => !(a = PyAtom.pynone)) := by
  induction xs with
  | nil => rfl
  | cons a t ih =>
      rw [List.all_cons, Bool.and_eq_true] at h
      cases a with
      | pynone =>
          rw [List.find?_cons_of_neg _ (by simp [truthyAtom]),
            List.find?_cons_of_neg _ (by simp)]
          exact ih h.2
      | str s =>
          have hs : ¬ s = "" := by
            intro hs
            subst hs
            simp [nullOrTruthy, truthyAtom] at h
          rw [List.find?_cons_of_pos _ (by simp [truthyAtom, hs]),
            List.find?_cons_of_pos _ (by simp)]
      | dt iso =>
          rw [List.find?_cons_of_pos _ (by simp [truthyAtom]),
            List.find?_cons_of_pos _ (by simp)]

/-- C7, amended: `_safe_str_date` maps `None` to `None`; reduces a list
to its first TRUTHY element (skipping `None` and falsy values such as
the empty string; `None` when every element is falsy) before the
remaining rules apply; formats a `datetime` as its ISO-8601
representation; passes a string through unchanged; and agrees with the
claim's first-non-null reading exactly on lists free of falsy non-null
elements. -/
theorem safe_str_date_characterization :
    _safe_str_date (.atom .pynone) = none ∧
    (∀ iso, _safe_str_date (.atom (.dt iso)) = some iso) ∧
    (∀ s, _safe_str_date (.atom (.str s)) = some s) ∧
    (∀ xs, xs.find? truthyAtom = none → _safe_str_date (.list xs) = none) ∧
    (∀ xs a, xs.find? truthyAtom = some a →
      _safe_str_date (.list xs) = atomToStrDate a) ∧
    (∀ xs, xs.all nullOrTruthy = true →
      _safe_str_date (.list xs) = safe_str_date_claim (.list xs)) := by
  refine ⟨rfl, fun iso => rfl, fun s => rfl, ?_, ?_, ?_⟩
  · intro xs h
    simp [_safe_str_date, h]
  · intro xs a h
    simp [_safe_str_date, h]
  · intro xs h
    simp [_safe_str_date, safe_str_date_claim,
      find_truthy_eq_find_nonnull xs h]

/-- C7, witness: the amended theorem applied at a list whose elements
are all null-or-truthy, and at a list with no truthy element. -/
theorem safe_str_date_characterization_witness :
    _safe_str_date (.list [.pynone, .dt "2020-01-01T00:00:00"]) =
      safe_str_date_claim (.list [.pynone, .dt "2020-01-01T00:00:00"]) ∧
    _safe_str_date (.list [.pynone, .str ""]) = none ∧
    _safe_str_date (.atom (.dt "2021-05-05T12:00:00")) =
      some "2021-05-05T12:00:00" :=
  ⟨safe_str_date_characterization.2.2.2.2.2
      [.pynone, .dt "2020-01-01T00:00:00"] (by decide),
   safe_str_date_characterization.2.2.2.1 [.pynone, .str ""] (by decide),
   safe_str_date_characterization.2.1 "2021-05-05T12:00:00"⟩

/-- CLI environment for the three-row batch: `bad.invalid` is
unresolvable, every other host resolves. -/
def cliEnvC8 : CliEnv :=
  { resolveIp := fun h =>
      if h = "bad.invalid" then .error "Name or service not known"
      else .ok "127.0.0.1"
    timestamp := "2026-01-01T00:00:00+00:00" }

/-- A three-row batch whose second row has an unresolvable host. -/
def csvInputC8 : List (List String) :=
  [["Good", "good.example"], ["Bad", "bad.invalid"], ["Also", "ok.example"]]

/-- C8: a header row is recognized case-insensitively (on the stripped,
lowercased first two cells) and skipped; every row with fewer than two
columns is skipped without being yielded (after logging); and a
resolution failure in one row is logged without aborting the rest — on
the concrete three-row batch whose second row is unresolvable, the
output is exactly the header plus the two successful rows in their
original input order, with one logged error. -/
theorem cli_batch_row_isolation :
    (∀ (a b : String) (t : List String) (rest : List (List String)),
      strLower (pyStrip a) = "nombre" → strLower (pyStrip b) = "url" →
      _iter_rows ((a :: b :: t) :: rest) = _iter_rows rest) ∧
    (∀ (row : List String) (rest : List (List String)), row.length < 2 →
      _iter_rows (row :: rest) = _iter_rows rest) ∧
    run_resolve cliEnvC8 csvInputC8 =
      { rows := [["nombre", "ip", "puerto", "timestamp"],
                 ["Good", "127.0.0.1", "80", "2026-01-01T00:00:00+00:00"],
                 ["Also", "127.0.0.1", "80", "2026-01-01T00:00:00+00:00"]]
        errors :=
          ["Error resolviendo Bad (bad.invalid): Name or service not known"] } := by
  refine ⟨?_, ?_, by decide⟩
  · intro a b t rest ha hb
    simp [_iter_rows, ha, hb]
  · intro row rest hlen
    match row with
    | [] => rfl
    | [a] => rfl
    | a :: b :: t => simp at hlen; omega

/-- C8, witness: the skip rules applied at a concrete upper-case header
row and a concrete one-column row. -/
theorem cli_batch_row_isolation_witness :
    _iter_rows [["Nombre", "URL"], ["A", "b.example"]] =
      _iter_rows [["A", "b.example"]] ∧
    _iter_rows [["lone"], ["A", "b.example"]] =
      _iter_rows [["A", "b.example"]] :=
  ⟨cli_batch_row_isolation.1 "Nombre" "URL" [] [["A", "b.example"]]
      (by decide) (by decide),
   cli_batch_row_isolation.2.1 ["lone"] [["A", "b.example"]] (by decide)⟩

/-- C9: the API response is computed before persistence is attempted and
does not depend on the persistence outcome — for every environment and
request, the HTTP-level result is identical whether the storage write
succeeds or raises (the write's exception is absorbed into a
`DB persist failed` log line, never propagated). -/
theorem api_persistence_failure_leaves_response (α : Type) (env : ApiEnv α)
    (req : ResolveRequest) (w w' : Except String Unit) :
    ((apiResolve { env with dbWrite := w } req).1 =
      (apiResolve { env with dbWrite := w' } req).1) ∧
    (∀ (m : String) (resp : ResolveResponse α) (logs : List String),
      env.dbAvailable = true →
      apiResolve { env with dbWrite := .error m } req = (.ok resp, logs) →
      ("DB persist failed: " ++ m) ∈ logs) := by
  constructor
  · cases hn : normalize_url req.url with
    | error e => simp [apiResolve, hn]
    | ok hp =>
        obtain ⟨host, port⟩ := hp
        by_cases hh : host = ""
        · simp [apiResolve, hn, hh]
        · cases hr : env.resolveIp host with
          | error e => simp [apiResolve, hn, hh, hr]
          | ok ip => simp [apiResolve, hn, hh, hr]
  · intro m resp logs hav heq
    cases hn : normalize_url req.url with
    | error e => simp [apiResolve, hn] at heq
    | ok hp =>
        obtain ⟨host, port⟩ := hp
        by_cases hh : host = ""
        · simp [apiResolve, hn, hh] at heq
        · cases hr : env.resolveIp host with
          | error e => simp [apiResolve, hn, hh, hr] at heq
          | ok ip =>
              simp [apiResolve, hn, hh, hr, hav] at heq
              simp [← heq.2]

/-- Concrete API environment: resolution succeeds, the four lookups
return immediately, the DB layer is available. -/
def envC9 : ApiEnv Unit :=
  { resolveIp := fun _ => .ok "127.0.0.1"
    lookups := fun _ _ _ =>
      { whois := .returns 0 (), geoip := .returns 0 ()
        tls := .returns 0 (), dns := .returns 0 () }
    timestamp := "2026-01-01T00:00:00+00:00"
    dbAvailable := true
    dbWrite := .ok () }

/-- The request used by the C9 witness. -/
def reqC9 : ResolveRequest := { name := "N", url := "example.com" }

/-- The response the C9 witness environment produces. -/
def respC9 : ResolveResponse Unit :=
  { name := "N", ip := "127.0.0.1", port := 80
    timestamp := "2026-01-01T00:00:00+00:00"
    whois := .ok (), geoip := .ok (), tls := .ok (), dns := .ok () }

/-- C9, witness: at a concrete request, the response is the same under a
succeeding and a raising storage write, and the raising write is
logged. -/
theorem api_persistence_failure_witness :
    ((apiResolve { envC9 with dbWrite := Except.error "boom" } reqC9).1 =
      (apiResolve { envC9 with dbWrite := Except.ok () } reqC9).1) ∧
    ("DB persist failed: " ++ "boom") ∈
      (apiResolve { envC9 with dbWrite := Except.error "boom" } reqC9).2 :=
  ⟨(api_persistence_failure_leaves_response Unit envC9 reqC9
      (Except.error "boom") (Except.ok ())).1,
   (api_persistence_failure_leaves_response Unit envC9 reqC9
      (Except.error "boom") (Except.ok ())).2 "boom" respC9
      ["DB persist failed: boom"] rfl (by decide)⟩

/-- C10: `get_whois` and `get_geoip` restore the process-global socket
default timeout on every path — import failure, a lookup that returns,
and a lookup that raises — so the default timeout observed after either
call equals the value observed before it. -/
theorem socket_default_timeout_restored (we : WhoisEnv) (ge : GeoipEnv)
    (s0 : SockTimeout) :
    (get_whois we s0).2 = s0 ∧ (get_geoip ge s0).2 = s0 := by
  constructor
  · cases hio : we.importOk with
    | false => simp [get_whois, hio]
    | true => cases hl : we.lookup with
      | error e => simp [get_whois, hio, hl]
      | ok data => simp [get_whois, hio, hl]
  · cases hio : ge.importOk with
    | false => simp [get_geoip, hio]
    | true => cases hl : ge.lookup with
      | error e => simp [get_geoip, hio, hl]
      | ok result => simp [get_geoip, hio, hl]

end NetLens
